import Mathlib

/-!
Verification of the meeting-assistant backend service layer
(`api/services.py`, `api/views.py`).

The Python service layer is shallowly embedded: every network round-trip is
abstracted as an oracle argument (a function from the attempt index to the
remote outcome), Python dictionaries parsed from JSON are embedded as
structures with `Option` fields for optionally-present keys, Python floats
are embedded as rationals, and raised exceptions are embedded with `Except`.
String helpers are re-implemented by structural recursion on the character
list so that every definition evaluates inside the kernel.
-/

/-- Model of Python `s.split('-')[0]`: the prefix of `s` before the first
dash (`''.split('-')[0] = ''`). -/
def pySplitHead (s : String) : String :=
  ⟨s.data.takeWhile (fun c => c ≠ '-')⟩

/-- Model of Python `s.lower()` (ASCII case folding). -/
def pyLower (s : String) : String :=
  ⟨s.data.map Char.toLower⟩

/-- Model of Python `s.strip()`: drop whitespace on both ends. -/
def pyStrip (s : String) : String :=
  ⟨((s.data.dropWhile Char.isWhitespace).reverse.dropWhile Char.isWhitespace).reverse⟩

/-- The exception type raised by the service layer
(`services.py` lines 40-46): a message, an HTTP-like status code, and the
name of the failing service. -/
structure APIError where
  message : String
  status_code : Nat
  service : String
deriving DecidableEq

/-- The processed transcription record built by
`BhashiniService.process_audio` on success (`services.py` lines 305-310).
The field order mirrors the insertion order of the Python dict literal. -/
structure TranscriptionResult where
  transcription : String
  translation : String
  detected_language : String
  status : String
deriving DecidableEq

/-- Source-language normalization of `BhashiniService.process_audio`
(`services.py` lines 188, 192-194): strip the region subtag, lower-case,
default the empty string to `"hi"`, and coerce anything outside
`['hi', 'en']` to `"hi"`. -/
def normalize_source_lang (source_lang : String) : String :=
  let s := if source_lang = "" then "hi" else pyLower (pySplitHead source_lang)
  if s = "hi" ∨ s = "en" then s else "hi"

/-- Target-language normalization of `BhashiniService.process_audio`
(`services.py` lines 189, 195-197): same as the source case with default
`"en"`. -/
def normalize_target_lang (target_lang : String) : String :=
  let s := if target_lang = "" then "en" else pyLower (pySplitHead target_lang)
  if s = "hi" ∨ s = "en" then s else "en"

/-- The `config` of the ASR pipeline task in the request payload
(`services.py` lines 228-241). -/
structure AsrTaskConfig where
  sourceLanguage : String
  serviceId : String
  audioFormat : String
  samplingRate : Nat
deriving DecidableEq

/-- The `config` of the translation pipeline task in the request payload
(`services.py` lines 242-251). -/
structure TranslationTaskConfig where
  sourceLanguage : String
  targetLanguage : String
  serviceId : String
deriving DecidableEq

/-- The two `pipelineTasks` of the ASR+translation request payload
(`services.py` lines 226-260); the audio content is not tracked. -/
structure PipelinePayload where
  asrTask : AsrTaskConfig
  translationTask : TranslationTaskConfig
deriving DecidableEq

/-- Payload construction from (already normalized) language codes
(`services.py` lines 226-260). -/
def build_pipeline_payload (source_lang target_lang : String) : PipelinePayload :=
  { asrTask :=
      { sourceLanguage := source_lang
        serviceId := "bhashini/ai4bharat/conformer-multilingual-asr"
        audioFormat := "wav"
        samplingRate := 16000 }
    translationTask :=
      { sourceLanguage := source_lang
        targetLanguage := target_lang
        serviceId := "ai4bharat/indictrans-v2-all-gpu--t4" } }

/-- The payload `BhashiniService.process_audio` sends for raw caller-supplied
language codes: normalization (`services.py` lines 188-197) happens before
payload construction (`services.py` lines 226-260). -/
def process_audio_payload (source_lang target_lang : String) : PipelinePayload :=
  build_pipeline_payload (normalize_source_lang source_lang) (normalize_target_lang target_lang)

/-- One entry of a stage `output` list in a Bhashini pipeline response:
a JSON object with optionally-present `source` and `target` string fields. -/
structure PipelineOutput where
  source : Option String
  target : Option String
deriving DecidableEq

/-- One entry of `pipelineResponse`: a JSON object whose `output` key is
optionally present (absent key modelled as `none`). -/
structure PipelineStage where
  output : Option (List PipelineOutput)
deriving DecidableEq

/-- A parsed HTTP-200 response body of the ASR+translation endpoint.
`result.get("pipelineResponse", [])` makes a missing key equal to `[]`,
so the field is a plain list. -/
structure BhashiniBody where
  pipelineResponse : List PipelineStage
deriving DecidableEq

/-- Model of `outputs[i].get("output", [{}])[0].get(key, "")`
(`services.py` lines 299-300): a missing `output` key defaults to `[{}]`
whose head is the empty dict (so the field lookup defaults to `""`), while
a present-but-empty `output` list raises `IndexError`. -/
def extract_stage_field (get : PipelineOutput → Option String) (st : PipelineStage) :
    Except String String :=
  match st.output with
  | none => Except.ok ""
  | some [] => Except.error "list index out of range"
  | some (o :: _) => Except.ok ((get o).getD "")

/-- The HTTP-200 branch of `BhashiniService.process_audio`
(`services.py` lines 281-314): fewer than two pipeline stages raise an
incomplete-response error; otherwise the transcript is extracted from stage
0 and the translation from stage 1, with an extraction exception converted
to a `Failed to extract results` error. -/
def handle_bhashini_200 (body : BhashiniBody) (source_lang : String) :
    Except APIError TranscriptionResult :=
  match body.pipelineResponse with
  | st0 :: st1 :: _ =>
    match extract_stage_field (fun o => o.source) st0 with
    | Except.error e => Except.error ⟨"Failed to extract results: " ++ e, 500, "bhashini"⟩
    | Except.ok transcript =>
      match extract_stage_field (fun o => o.target) st1 with
      | Except.error e => Except.error ⟨"Failed to extract results: " ++ e, 500, "bhashini"⟩
      | Except.ok translation =>
        Except.ok ⟨transcript, translation, source_lang, "success"⟩
  | _ => Except.error ⟨"Incomplete Bhashini response", 500, "bhashini"⟩

/-- Outcome of one `requests.post` attempt against the ASR+translation
endpoint: an HTTP response (status, raw text, parsed body) or a raised
network exception. -/
inductive AttemptOutcome where
  | http (status : Nat) (text : String) (body : BhashiniBody)
  | timeout
  | connectionError
deriving DecidableEq

instance {α β : Type} [DecidableEq α] [DecidableEq β] : DecidableEq (Except α β) := fun x y =>
  match x, y with
  | Except.ok a, Except.ok b =>
    if h : a = b then Decidable.isTrue (by rw [h]) else Decidable.isFalse (by simp [h])
  | Except.error a, Except.error b =>
    if h : a = b then Decidable.isTrue (by rw [h]) else Decidable.isFalse (by simp [h])
  | Except.ok _, Except.error _ => Decidable.isFalse (by simp)
  | Except.error _, Except.ok _ => Decidable.isFalse (by simp)

/-- Observable trace of the retry loop of `BhashiniService.process_audio`:
the number of attempts made, the list of backoff waits (in seconds, in
order), and the final outcome. -/
structure RetryTrace where
  attempts : Nat
  waits : List Nat
  outcome : Except APIError TranscriptionResult
deriving DecidableEq

/-- The retry loop of `BhashiniService.process_audio`
(`services.py` lines 272-377): per attempt, 200 is parsed (parse errors
abort the loop), 500 / timeout / connection errors are retried after a
`2 ^ attempt` second wait until the last attempt, and 401 / 400 / any other
status fail immediately.  The fuel argument counts the remaining iterations
of `for attempt in range(max_retries)`; running out of fuel models falling
out of the loop to line 377. -/
def process_audio_loop (respond : Nat → AttemptOutcome) (source_lang : String)
    (max_retries : Nat) : Nat → Nat → RetryTrace
  | _, 0 =>
    ⟨0, [], Except.error ⟨"Bhashini API failed unexpectedly after all retries", 500, "bhashini"⟩⟩
  | attempt, fuel + 1 =>
    match respond attempt with
    | AttemptOutcome.http status text body =>
      if status = 200 then
        ⟨1, [], handle_bhashini_200 body source_lang⟩
      else if status = 500 then
        if attempt = max_retries - 1 then
          ⟨1, [], Except.error ⟨"Bhashini API failed after " ++ toString max_retries ++
            " attempts: 500 Internal Server Error", 500, "bhashini"⟩⟩
        else
          let t := process_audio_loop respond source_lang max_retries (attempt + 1) fuel
          ⟨t.attempts + 1, 2 ^ attempt :: t.waits, t.outcome⟩
      else if status = 401 then
        ⟨1, [], Except.error ⟨"Bhashini API authentication failed - check API token", 401, "bhashini"⟩⟩
      else if status = 400 then
        ⟨1, [], Except.error ⟨"Bhashini API bad request: " ++ text, 400, "bhashini"⟩⟩
      else
        ⟨1, [], Except.error ⟨"Bhashini compute request failed: " ++ toString status ++ " - " ++ text,
          status, "bhashini"⟩⟩
    | AttemptOutcome.timeout =>
      if attempt = max_retries - 1 then
        ⟨1, [], Except.error ⟨"Bhashini API timeout after retries", 408, "bhashini"⟩⟩
      else
        let t := process_audio_loop respond source_lang max_retries (attempt + 1) fuel
        ⟨t.attempts + 1, 2 ^ attempt :: t.waits, t.outcome⟩
    | AttemptOutcome.connectionError =>
      if attempt = max_retries - 1 then
        ⟨1, [], Except.error ⟨"Bhashini API connection failed", 503, "bhashini"⟩⟩
      else
        let t := process_audio_loop respond source_lang max_retries (attempt + 1) fuel
        ⟨t.attempts + 1, 2 ^ attempt :: t.waits, t.outcome⟩

/-- `BhashiniService.process_audio` (`services.py` lines 184-383): normalize
the language codes, then run the retry loop.  Audio decoding/resampling
never aborts processing (it falls back to the original bytes) and is not
observable in the result, so it is not tracked.  Language detection is
disabled in the source (lines 217-223): `detected_lang = source_lang` with
no remote call, so the loop receives the normalized source language. -/
def process_audio (respond : Nat → AttemptOutcome) (source_lang target_lang : String)
    (max_retries : Nat) : RetryTrace :=
  process_audio_loop respond (normalize_source_lang source_lang) max_retries 0 max_retries

/-- One raw time segment of the diarization response: a JSON object with
`start_time` and `duration` fields (Python floats, embedded as rationals);
`float(segment.get(key, 0))` makes missing fields equal to `0`. -/
structure SpeakerSegmentJson where
  start_time : Rat
  duration : Rat
deriving DecidableEq

/-- One entry of the `speaker_labels` list: a JSON object mapping speaker
ids to their segment lists, in insertion order. -/
abbrev LabelEntry := List (String × List SpeakerSegmentJson)

/-- The first element of the diarization `output` list: a JSON object whose
`speaker_labels` key is optionally present. -/
structure SpeakerData where
  speaker_labels : Option (List LabelEntry)
deriving DecidableEq

/-- A processed segment as stored by `_format_bhashini_speaker_data`
(`services.py` lines 569-573). -/
structure ProcessedSegment where
  start_time : Rat
  end_time : Rat
  duration : Rat
deriving DecidableEq

/-- A per-speaker profile dict as built by `_format_bhashini_speaker_data`
(`services.py` lines 554-582).  `label` and `percentage` are `Option`
because the Python dict only acquires those keys if the labelling loop
reaches the corresponding assignment. -/
structure SpeakerProfile where
  speaker_id : String
  segments : List ProcessedSegment
  total_duration : Rat
  label : Option String
  percentage : Option Rat
deriving DecidableEq

/-- `if speaker_id not in speaker_times: speaker_times[speaker_id] = {...}`
(`services.py` lines 554-559): insert an empty profile at the end iff the
id is new (Python dicts preserve insertion order). -/
def ensure_speaker (speaker_id : String) (acc : List SpeakerProfile) : List SpeakerProfile :=
  if acc.any (fun p => p.speaker_id == speaker_id) then acc
  else acc ++ [⟨speaker_id, [], 0, none, none⟩]

/-- Append one segment to the named profile and add its duration to the
running total (`services.py` lines 563-574). -/
def push_segment (speaker_id : String) (seg : SpeakerSegmentJson) :
    List SpeakerProfile → List SpeakerProfile
  | [] => []
  | p :: ps =>
    if p.speaker_id == speaker_id then
      { p with
        segments := p.segments ++ [⟨seg.start_time, seg.start_time + seg.duration, seg.duration⟩]
        total_duration := p.total_duration + seg.duration } :: ps
    else p :: push_segment speaker_id seg ps

/-- Process one `speaker_id -> segments` pair of a label entry
(`services.py` lines 553-574). -/
def add_speaker_entry (acc : List SpeakerProfile) (entry : String × List SpeakerSegmentJson) :
    List SpeakerProfile :=
  entry.2.foldl (fun a seg => push_segment entry.1 seg a) (ensure_speaker entry.1 acc)

/-- The aggregation loops of `_format_bhashini_speaker_data`
(`services.py` lines 551-574): fold all label entries into an
insertion-ordered profile list (the model of the `speaker_times` dict). -/
def aggregate_speaker_times (entries : List LabelEntry) : List SpeakerProfile :=
  entries.foldl (fun acc entry => entry.foldl add_speaker_entry acc) []

/-- Stable descending insertion by `total_duration`: the new element goes
in front of the first existing element whose total does not exceed it. -/
def insert_desc (x : SpeakerProfile) : List SpeakerProfile → List SpeakerProfile
  | [] => [x]
  | y :: ys => if y.total_duration ≤ x.total_duration then x :: y :: ys else y :: insert_desc x ys

/-- Model of `sorted(speaker_times.values(), key=..., reverse=True)`
(`services.py` line 577): Python sorting is stable, and a stable insertion
sort with the descending comparison produces the same list. -/
def sort_by_total_desc : List SpeakerProfile → List SpeakerProfile
  | [] => []
  | x :: xs => insert_desc x (sort_by_total_desc xs)

/-- Round half to even, the rounding used by Python `round`. -/
def round_half_even (q : Rat) : Int :=
  let f := q.floor
  let r := q - (f : Rat)
  if r < 1 / 2 then f
  else if 1 / 2 < r then f + 1
  else if f % 2 = 0 then f else f + 1

/-- Model of Python `round(x, 1)` on the rational embedding of floats. -/
def python_round1 (q : Rat) : Rat :=
  ((round_half_even (q * 10) : Int) : Rat) / 10

/-- The labelling loop of `_format_bhashini_speaker_data`
(`services.py` lines 580-582).  Each iteration first sets the label, then
computes `round((total_duration / sum) * 100, 1)`; the `if speakers else 0`
guard is always true inside the loop (the list is non-empty there), so a
zero sum raises `ZeroDivisionError` right after the first label assignment.
The boolean records whether the exception was raised; the returned list is
the state of the (mutated-in-place) profiles at that moment. -/
def label_speakers_loop (total : Rat) : Nat → List SpeakerProfile → List SpeakerProfile × Bool
  | _, [] => ([], false)
  | i, p :: ps =>
    let p1 := { p with label := some ("Speaker " ++ toString (i + 1)) }
    if total = 0 then
      (p1 :: ps, true)
    else
      let p2 := { p1 with percentage := some (python_round1 (p1.total_duration / total * 100)) }
      let rest := label_speakers_loop total (i + 1) ps
      (p2 :: rest.1, rest.2)

/-- `BhashiniService._format_bhashini_speaker_data`
(`services.py` lines 528-587): aggregate, sort descending by total
duration, then label; any exception inside the `try` is swallowed and the
profiles accumulated so far are returned (`services.py` lines 584-587). -/
def format_bhashini_speaker_data (speaker_output : List SpeakerData) : List SpeakerProfile :=
  match speaker_output with
  | [] => []
  | sd :: _ =>
    let speakers := sort_by_total_desc (aggregate_speaker_times (sd.speaker_labels.getD []))
    let total := (speakers.map (fun p => p.total_duration)).sum
    (label_speakers_loop total 0 speakers).1

/-- One entry of the diarization `pipelineResponse`
(`services.py` lines 488-491): `taskType` and an optionally-present
`output` key (`task_result.get("output", [])` defaults it to `[]`). -/
structure DiarStage where
  taskType : String
  output : Option (List SpeakerData)
deriving DecidableEq

/-- A parsed HTTP-200 response body of the diarization endpoint. -/
structure DiarBody where
  pipelineResponse : List DiarStage
deriving DecidableEq

/-- Outcome of one `requests.post` attempt against the diarization
endpoint: an HTTP response or a raised `requests` exception. -/
inductive DiarAttemptOutcome where
  | http (status : Nat) (body : DiarBody)
  | requestException (msg : String)
deriving DecidableEq

/-- The success dict of `BhashiniService.speaker_diarization`
(`services.py` lines 502-508); `raw_output` is not tracked. -/
structure DiarizationResult where
  speakers : List SpeakerProfile
  speaker_count : Nat
  speaker_labels : List String
  status : String
deriving DecidableEq

/-- The search for the `speaker-diarization` task result
(`services.py` lines 487-491). -/
def find_speaker_output : List DiarStage → Option (List SpeakerData)
  | [] => none
  | st :: rest =>
    if st.taskType == "speaker-diarization" then some (st.output.getD [])
    else find_speaker_output rest

/-- The HTTP-200 branch of `BhashiniService.speaker_diarization`
(`services.py` lines 476-508): an empty `pipelineResponse` or an absent /
empty speaker output raise; otherwise the formatted profiles are wrapped
with count, labels and status. -/
def handle_diarization_200 (body : DiarBody) : Except APIError DiarizationResult :=
  if body.pipelineResponse.isEmpty then
    Except.error ⟨"Incomplete speaker diarization response", 500, "bhashini"⟩
  else
    let speaker_output := (find_speaker_output body.pipelineResponse).getD []
    if speaker_output.isEmpty then
      Except.error ⟨"No speaker diarization results in response", 500, "bhashini"⟩
    else
      let formatted := format_bhashini_speaker_data speaker_output
      Except.ok ⟨formatted, formatted.length,
        (List.range formatted.length).map (fun i => "Speaker " ++ toString (i + 1)),
        "success"⟩

/-- The retry loop of `BhashiniService.speaker_diarization`
(`services.py` lines 472-520).  Falling out of the loop (fuel exhausted
without a return, possible only when the retry bound is 0) models the
Python function returning `None`, hence the `Option` in the result. -/
def speaker_diarization_loop (respond : Nat → DiarAttemptOutcome) (max_retries : Nat) :
    Nat → Nat → Except APIError (Option DiarizationResult)
  | _, 0 => Except.ok none
  | attempt, fuel + 1 =>
    match respond attempt with
    | DiarAttemptOutcome.http status body =>
      if status = 200 then
        match handle_diarization_200 body with
        | Except.error e => Except.error e
        | Except.ok r => Except.ok (some r)
      else if attempt = max_retries - 1 then
        Except.error ⟨"Speaker diarization failed: " ++ toString status, status, "bhashini"⟩
      else speaker_diarization_loop respond max_retries (attempt + 1) fuel
    | DiarAttemptOutcome.requestException msg =>
      if attempt = max_retries - 1 then
        Except.error ⟨"Network error in speaker diarization: " ++ msg, 500, "network"⟩
      else speaker_diarization_loop respond max_retries (attempt + 1) fuel

/-- The mutable attribute state of a `BhashiniService` instance.
`__init__` (`services.py` lines 51-65) assigns only `api_token` and
`compute_url`; it never assigns `max_retries`, so that attribute is
modelled as an `Option` which is `none` for every constructed instance. -/
structure BhashiniService where
  api_token : String
  compute_url : String
  max_retries : Option Nat
deriving DecidableEq

/-- `BhashiniService.__init__` (`services.py` lines 51-65). -/
def BhashiniService.init (api_token : String) : BhashiniService :=
  ⟨api_token, "https://dhruva-api.bhashini.gov.in/services/inference/pipeline", none⟩

/-- `BhashiniService.speaker_diarization` (`services.py` lines 412-526).
Reading `self.max_retries` on an instance without that attribute raises
`AttributeError`, which the final `except Exception` handler
(`services.py` lines 524-526) converts into an `APIError`; the modelled
message elides the Python quote characters. -/
def BhashiniService.speaker_diarization (svc : BhashiniService)
    (respond : Nat → DiarAttemptOutcome) : Except APIError (Option DiarizationResult) :=
  match svc.max_retries with
  | none =>
    Except.error ⟨"Speaker diarization processing error: AttributeError: BhashiniService object has no attribute max_retries", 500, "processing"⟩
  | some n => speaker_diarization_loop respond n 0 n

/-- The combined dict built by `BhashiniService.process_audio_with_speakers`
(`services.py` lines 617-641): the processed transcription fields plus the
speaker fields. -/
structure CombinedResult where
  transcription : String
  translation : String
  detected_language : String
  status : String
  speakers : List SpeakerProfile
  speaker_count : Nat
  speaker_labels : List String
  diarization_status : String
deriving DecidableEq

/-- `BhashiniService.process_audio_with_speakers`
(`services.py` lines 589-648): run the standard processing (default
`max_retries = 3`); on its failure the outer handler re-wraps the error
(`services.py` lines 646-648).  With diarization requested, any exception
from the diarization call is absorbed into the `failed` branch
(`services.py` lines 625-633); a `None` diarization result also lands
there because `speaker_result.get` then raises `AttributeError`. -/
def BhashiniService.process_audio_with_speakers (svc : BhashiniService)
    (asrRespond : Nat → AttemptOutcome) (diarRespond : Nat → DiarAttemptOutcome)
    (source_lang target_lang : String) (include_diarization : Bool) :
    Except APIError CombinedResult :=
  match (process_audio asrRespond source_lang target_lang 3).outcome with
  | Except.error e =>
    Except.error ⟨"Enhanced processing error: " ++ e.message, 500, "processing"⟩
  | Except.ok std =>
    if include_diarization then
      match svc.speaker_diarization diarRespond with
      | Except.ok (some sr) =>
        Except.ok ⟨std.transcription, std.translation, std.detected_language, std.status,
          sr.speakers, sr.speaker_count, sr.speaker_labels, "completed"⟩
      | Except.ok none =>
        Except.ok ⟨std.transcription, std.translation, std.detected_language, std.status,
          [], 0, [], "failed"⟩
      | Except.error _ =>
        Except.ok ⟨std.transcription, std.translation, std.detected_language, std.status,
          [], 0, [], "failed"⟩
    else
      Except.ok ⟨std.transcription, std.translation, std.detected_language, std.status,
        [], 0, [], "disabled"⟩

/-- A validated action item (`services.py` lines 806-811). -/
structure ActionItem where
  item : String
  assignee : String
  priority : String
  dueDate : String
deriving DecidableEq

/-- The analysis dict returned by
`GeminiService.generate_summary_and_actions` (`services.py` lines 824-828);
the `AnalysisResult` of the specification. -/
structure AnalysisResult where
  summary : String
  actionItems : List ActionItem
  keyDecisions : List String
deriving DecidableEq

/-- One entry of the parsed `actionItems` JSON list: either a JSON object
with optionally-present string fields, or a non-object value (dropped by
the validation pass, `services.py` lines 803-811). -/
inductive ActionItemJson where
  | dict (item assignee priority dueDate : Option String)
  | nonDict
deriving DecidableEq

/-- One entry of the parsed `keyDecisions` JSON list: a string or a
non-string value (dropped by the validation pass,
`services.py` lines 813-817). -/
inductive DecisionJson where
  | str (s : String)
  | nonStr
deriving DecidableEq

/-- The JSON object successfully parsed from the generated text
(`services.py` lines 796-800), with each expected key optionally
present. -/
structure ParsedGeminiJson where
  summary : Option String
  actionItems : Option (List ActionItemJson)
  keyDecisions : Option (List DecisionJson)
deriving DecidableEq

/-- The generated text of one response part together with the outcome of
`json.loads` on its code-fence-stripped form (`services.py` lines 793-796):
either the raw text fails to parse, or it parses to a JSON object. -/
inductive GeminiGenerated where
  | malformedJson (raw : String)
  | parsed (json : ParsedGeminiJson)
deriving DecidableEq

/-- One entry of the `candidates` list; `content` is `none` when the
`content` key or its `parts` key is missing
(`services.py` lines 786-788). -/
structure GeminiCandidate where
  content : Option (List GeminiGenerated)
deriving DecidableEq

/-- A parsed response body of the Gemini endpoint; a missing or empty
`candidates` list is modelled by `[]` (`services.py` lines 781-783). -/
structure GeminiBody where
  candidates : List GeminiCandidate
deriving DecidableEq

/-- Outcome of the single `requests.post` to the Gemini endpoint. -/
inductive GeminiHttpOutcome where
  | http (status : Nat) (body : GeminiBody)
deriving DecidableEq

/-- The action-item validation pass (`services.py` lines 803-811):
non-dict entries are dropped, missing fields get the documented
defaults. -/
def validate_action_items : List ActionItemJson → List ActionItem
  | [] => []
  | ActionItemJson.dict i a p d :: rest =>
    ⟨i.getD "No description", a.getD "Not specified", p.getD "Medium", d.getD "Not specified"⟩ ::
      validate_action_items rest
  | ActionItemJson.nonDict :: rest => validate_action_items rest

/-- The key-decision validation pass (`services.py` lines 813-817):
non-string entries are dropped. -/
def validate_key_decisions : List DecisionJson → List String
  | [] => []
  | DecisionJson.str s :: rest => s :: validate_key_decisions rest
  | DecisionJson.nonStr :: rest => validate_key_decisions rest

/-- `GeminiService.generate_summary_and_actions`
(`services.py` lines 704-845).  Blank input short-circuits to the degraded
result without a network call (lines 709-714).  A non-200 status, an empty
`candidates` list, and a missing `content`/`parts` key each raise an
`APIError` (lines 774-788); an empty `parts` list raises `IndexError`,
wrapped by the final handler (lines 843-845).  A JSON parse failure falls
back to the raw text as summary (lines 830-839); a successful parse is
validated field by field (lines 796-828). -/
def generate_summary_and_actions (text : String) (pre_meeting_notes : String)
    (respond : GeminiHttpOutcome) : Except APIError AnalysisResult :=
  if text = "" ∨ pyStrip text = "" then
    Except.ok ⟨"No content available for summary", [], []⟩
  else
    match respond with
    | GeminiHttpOutcome.http status body =>
      if status ≠ 200 then
        Except.error ⟨"Gemini AI request failed: " ++ toString status, status, "gemini"⟩
      else
        match body.candidates with
        | [] => Except.error ⟨"No response from Gemini AI", 500, "gemini"⟩
        | c :: _ =>
          match c.content with
          | none => Except.error ⟨"Invalid Gemini AI response", 500, "gemini"⟩
          | some parts =>
            match parts with
            | [] => Except.error ⟨"AI analysis failed: list index out of range", 500, "gemini"⟩
            | g :: _ =>
              match g with
              | GeminiGenerated.malformedJson raw =>
                Except.ok ⟨if raw ≠ "" then raw
                  else "AI analysis completed but summary format was invalid", [], []⟩
              | GeminiGenerated.parsed j =>
                Except.ok ⟨j.summary.getD "Summary not available",
                  validate_action_items (j.actionItems.getD []),
                  validate_key_decisions (j.keyDecisions.getD [])⟩

/-- The view-level language normalization (`views.py` lines 126-127 and
357-359): split off the region subtag and lower-case, with no defaulting
and no supported-set check (those happen again inside the service). -/
def view_normalize_lang (s : String) : String := pyLower (pySplitHead s)

/-- The processed-result record as an insertion-ordered field list, the
shape over which `bhashini_result.items()` iterates
(`views.py` line 171, dict built at `services.py` lines 305-310). -/
def result_fields (r : TranscriptionResult) : List (String × String) :=
  [("transcription", r.transcription), ("translation", r.translation),
   ("detected_language", r.detected_language), ("status", r.status)]

/-- The last-resort scan of `process_audio` (`views.py` lines 169-177):
for each string field whose stripped value is non-empty, fill whichever of
transcript / translation is still empty with the (unstripped) value. -/
def scan_result_fields : List (String × String) → String × String → String × String
  | [], acc => acc
  | (_, v) :: rest, (transcript, translation) =>
    if pyStrip v ≠ "" then
      scan_result_fields rest
        (if transcript = "" then v else transcript,
         if translation = "" then v else translation)
    else
      scan_result_fields rest (transcript, translation)

/-- The transcript/translation extraction of the `process_audio` view
(`views.py` lines 138-177) on the processed response format: read the two
fields, backfill an empty translation from a non-empty transcript
(lines 160-162, with no language condition), and if both are still empty
scan all fields of the result record (lines 165-177). -/
def view_extract (r : TranscriptionResult) : String × String :=
  let transcript := r.transcription
  let translation := r.translation
  let translation := if translation = "" ∧ transcript ≠ "" then transcript else translation
  if transcript = "" ∧ translation = "" then
    scan_result_fields (result_fields r) ("", "")
  else
    (transcript, translation)

/-- The `data` object of a successful `process_audio` response
(`views.py` lines 204-219), restricted to the tracked fields. -/
structure ProcessAudioData where
  transcript : String
  translation : String
  summary : String
  actionItems : List ActionItem
  keyDecisions : List String
  sourceLanguage : String
  targetLanguage : String
deriving DecidableEq

/-- A JSON view response: either a success payload, or the standardized
error response built by `create_error_response` (`views.py` lines 44-56)
from an `APIError`. -/
inductive ViewResponse (α : Type) where
  | success (data : α)
  | failure (error : String) (service : String) (status : Nat)
deriving DecidableEq

/-- The fallback analysis content used when no transcript, translation or
pre-meeting notes are available (`views.py` line 196). -/
def fallback_content : String :=
  "Audio processing completed but no transcript was generated. This could be due to audio quality, silence, or language detection issues."

/-- The `process_audio` view (`views.py` lines 74-228) after request
parsing: normalize the language codes, run the Bhashini service, extract
transcript and translation, choose the analysis content with its fallbacks
(lines 183-197), run the Gemini service, and assemble the response; any
`APIError` becomes the standardized error response (lines 223-224). -/
def process_audio_view (asrRespond : Nat → AttemptOutcome) (geminiRespond : GeminiHttpOutcome)
    (source_lang target_lang pre_meeting_notes : String) : ViewResponse ProcessAudioData :=
  let src := view_normalize_lang source_lang
  let tgt := view_normalize_lang target_lang
  match (process_audio asrRespond src tgt 3).outcome with
  | Except.error e => ViewResponse.failure e.message e.service e.status_code
  | Except.ok r =>
    let p := view_extract r
    let content := if p.2 ≠ "" then p.2 else p.1
    let content :=
      if pyStrip content = "" then
        if pyStrip pre_meeting_notes ≠ "" then "Pre-meeting notes: " ++ pre_meeting_notes
        else fallback_content
      else content
    match generate_summary_and_actions content pre_meeting_notes geminiRespond with
    | Except.error e => ViewResponse.failure e.message e.service e.status_code
    | Except.ok ai =>
      ViewResponse.success ⟨p.1, p.2, ai.summary, ai.actionItems, ai.keyDecisions, src, tgt⟩

/-- The `data` object of a successful `process_audio_with_speakers`
response (`views.py` lines 388-399). -/
structure SpeakersViewData where
  transcript : String
  translation : String
  summary : String
  actionItems : List ActionItem
  keyDecisions : List String
  speakers : List SpeakerProfile
  speakerCount : Nat
  speakerLabels : List String
  diarizationStatus : String
deriving DecidableEq

/-- The speaker-time breakdown appended to the analysis content when more
than one speaker was identified (`views.py` lines 375-379). -/
def speaker_analysis_text (speakers : List SpeakerProfile) (speaker_count : Nat) : String :=
  "\n\nSpeaker Analysis: " ++ toString speaker_count ++ " speakers identified:\n" ++
    String.join (speakers.enum.map (fun e =>
      "- Speaker " ++ toString (e.1 + 1) ++ " (" ++ e.2.speaker_id ++ "): " ++
        toString e.2.total_duration ++ "s total speaking time\n"))

/-- The `process_audio_with_speakers` view (`views.py` lines 304-418) after
request parsing: normalize the language codes, run the enhanced service
call, read the fields of the combined result (lines 368-371, with no
translation backfill), build the analysis content (lines 374-379), run the
Gemini service, and assemble the response. -/
def process_audio_with_speakers_view (svc : BhashiniService)
    (asrRespond : Nat → AttemptOutcome) (diarRespond : Nat → DiarAttemptOutcome)
    (geminiRespond : GeminiHttpOutcome)
    (source_lang target_lang pre_meeting_notes : String) (include_diarization : Bool) :
    ViewResponse SpeakersViewData :=
  let src := view_normalize_lang source_lang
  let tgt := view_normalize_lang target_lang
  match svc.process_audio_with_speakers asrRespond diarRespond src tgt include_diarization with
  | Except.error e => ViewResponse.failure e.message e.service e.status_code
  | Except.ok c =>
    let transcript := c.transcription
    let translation := c.translation
    let content := if translation ≠ "" then translation else transcript
    let content :=
      if ¬ c.speakers.isEmpty ∧ c.speaker_count > 1 then
        content ++ speaker_analysis_text c.speakers c.speaker_count
      else content
    match generate_summary_and_actions content pre_meeting_notes geminiRespond with
    | Except.error e => ViewResponse.failure e.message e.service e.status_code
    | Except.ok ai =>
      ViewResponse.success ⟨transcript, translation, ai.summary, ai.actionItems, ai.keyDecisions,
        c.speakers, c.speaker_count, c.speaker_labels, c.diarization_status⟩

theorem normalize_source_lang_mem (s : String) :
    normalize_source_lang s = "hi" ∨ normalize_source_lang s = "en" := by
  simp only [normalize_source_lang]
  by_cases h : (if s = "" then "hi" else pyLower (pySplitHead s)) = "hi" ∨
      (if s = "" then "hi" else pyLower (pySplitHead s)) = "en"
  · rw [if_pos h]; exact h
  · rw [if_neg h]; left; rfl

theorem normalize_target_lang_mem (t : String) :
    normalize_target_lang t = "hi" ∨ normalize_target_lang t = "en" := by
  simp only [normalize_target_lang]
  by_cases h : (if t = "" then "en" else pyLower (pySplitHead t)) = "hi" ∨
      (if t = "" then "en" else pyLower (pySplitHead t)) = "en"
  · rw [if_pos h]; exact h
  · rw [if_neg h]; right; rfl

/-- Claim C3: if the remote ASR+translation endpoint returns HTTP 500 on
every attempt, `process_audio` with the default `max_retries = 3` makes
exactly 3 attempts, waits `2 ^ 0` then `2 ^ 1` seconds between consecutive
attempts (total backoff at least 3 seconds), and raises an `APIError` with
status code 500 reporting failure after 3 attempts. -/
theorem process_audio_three_500s_trace (src tgt text : String) (body : BhashiniBody) :
    process_audio (fun _ => AttemptOutcome.http 500 text body) src tgt 3 =
      ⟨3, [2 ^ 0, 2 ^ 1],
        Except.error ⟨"Bhashini API failed after 3 attempts: 500 Internal Server Error",
          500, "bhashini"⟩⟩
    ∧ 2 ^ 0 + 2 ^ 1 ≥ 3 :=
  ⟨rfl, by decide⟩

/-- Claim C7: for every raw source/target language input, the request
payload of `process_audio` is built from the normalized codes (region
subtag stripped, lower-cased), both normalized codes lie in the supported
set, and any code whose stripped lower-cased form is outside the supported
set is silently coerced to the defaults (source `"hi"`, target `"en"`). -/
theorem payload_uses_normalized_coerced_languages (s t : String) :
    (process_audio_payload s t).asrTask.sourceLanguage = normalize_source_lang s
    ∧ (process_audio_payload s t).translationTask.sourceLanguage = normalize_source_lang s
    ∧ (process_audio_payload s t).translationTask.targetLanguage = normalize_target_lang t
    ∧ (normalize_source_lang s = "hi" ∨ normalize_source_lang s = "en")
    ∧ (normalize_target_lang t = "hi" ∨ normalize_target_lang t = "en")
    ∧ (pyLower (pySplitHead s) ≠ "hi" → pyLower (pySplitHead s) ≠ "en" →
        normalize_source_lang s = "hi")
    ∧ (pyLower (pySplitHead t) ≠ "hi" → pyLower (pySplitHead t) ≠ "en" →
        normalize_target_lang t = "en") := by
  refine ⟨rfl, rfl, rfl, normalize_source_lang_mem s, normalize_target_lang_mem t, ?_, ?_⟩
  · intro h1 h2
    by_cases hs : s = ""
    · simp [normalize_source_lang, hs]
    · simp [normalize_source_lang, hs, h1, h2]
  · intro h1 h2
    by_cases ht : t = ""
    · simp [normalize_target_lang, ht]
    · simp [normalize_target_lang, ht, h1, h2]

theorem payload_uses_normalized_coerced_languages_witness :
    (pyLower (pySplitHead "ta-IN") ≠ "hi" ∧ pyLower (pySplitHead "ta-IN") ≠ "en") ∧
      normalize_source_lang "ta-IN" = "hi" :=
  ⟨⟨by decide, by decide⟩,
    (payload_uses_normalized_coerced_languages "ta-IN" "fr").2.2.2.2.2.1 (by decide) (by decide)⟩

/-- The HTTP-200 body used to refute claim C8: stage 0 carries a present
but empty `output` list (so `outputs[0]["output"][0]` raises `IndexError`),
stage 1 a normal translation output. -/
def c8_body : BhashiniBody := ⟨[⟨some []⟩, ⟨some [⟨none, some "ok"⟩]⟩]⟩

/-- Claim C8 counterexample: with a present-but-empty stage-0 `output`
list the expected field path `outputs[0].output[0].source` is absent, yet
extraction raises a `Failed to extract results` `APIError` instead of
defaulting the transcript to the empty string. -/
theorem empty_output_list_raises_instead_of_default :
    handle_bhashini_200 c8_body "hi" =
      Except.error ⟨"Failed to extract results: list index out of range", 500, "bhashini"⟩
    ∧ handle_bhashini_200 c8_body "hi" ≠ Except.ok ⟨"", "ok", "hi", "success"⟩ :=
  ⟨rfl, by decide⟩

/-- Claim C8 as amended: at HTTP 200, fewer than two pipeline stages raise
the incomplete-response `APIError`; otherwise the transcript comes from
stage 0 `source` and the translation from stage 1 `target`, each defaulting
to the empty string when the `output` key or the field itself is absent —
but a present-and-empty `output` list raises a `Failed to extract results`
`APIError` instead of defaulting. -/
theorem bhashini_200_parsing_amended (body : BhashiniBody) (src : String)
    (d0 d1 : PipelineOutput) (t0 t1 : List PipelineOutput) (rest : List PipelineStage) :
    (body.pipelineResponse.length < 2 →
      handle_bhashini_200 body src =
        Except.error ⟨"Incomplete Bhashini response", 500, "bhashini"⟩)
    ∧ handle_bhashini_200 ⟨⟨some (d0 :: t0)⟩ :: ⟨some (d1 :: t1)⟩ :: rest⟩ src =
        Except.ok ⟨d0.source.getD "", d1.target.getD "", src, "success"⟩
    ∧ handle_bhashini_200 ⟨⟨none⟩ :: ⟨none⟩ :: rest⟩ src = Except.ok ⟨"", "", src, "success"⟩
    ∧ handle_bhashini_200 ⟨⟨some []⟩ :: ⟨some (d1 :: t1)⟩ :: rest⟩ src =
        Except.error ⟨"Failed to extract results: list index out of range", 500, "bhashini"⟩
    ∧ handle_bhashini_200 ⟨⟨some (d0 :: t0)⟩ :: ⟨some []⟩ :: rest⟩ src =
        Except.error ⟨"Failed to extract results: list index out of range", 500, "bhashini"⟩ := by
  refine ⟨?_, rfl, rfl, rfl, rfl⟩
  intro h
  rcases body with ⟨pr⟩
  match pr with
  | [] => rfl
  | [st] => rfl
  | st0 :: st1 :: rest' => simp [List.length] at h; omega

theorem bhashini_200_parsing_amended_witness :
    (BhashiniBody.mk [⟨some []⟩]).pipelineResponse.length < 2 ∧
      handle_bhashini_200 ⟨[⟨some []⟩]⟩ "hi" =
        Except.error ⟨"Incomplete Bhashini response", 500, "bhashini"⟩ :=
  ⟨by decide,
    (bhashini_200_parsing_amended ⟨[⟨some []⟩]⟩ "hi" ⟨none, none⟩ ⟨none, none⟩ [] [] []).1
      (by decide)⟩

/-- A response body whose two stages carry a transcript and a translation;
used as a successful ASR+translation upstream. -/
def asr_ok_body : BhashiniBody :=
  ⟨[⟨some [⟨some "namaste", none⟩]⟩, ⟨some [⟨none, some "hello"⟩]⟩]⟩

/-- An upstream that answers every ASR+translation attempt with HTTP 200
and `asr_ok_body`. -/
def asr_ok_respond : Nat → AttemptOutcome := fun _ => AttemptOutcome.http 200 "" asr_ok_body

/-- Claim C1 counterexample: when the Gemini endpoint answers HTTP 500,
`generate_summary_and_actions` does not return a degraded result — it
raises an `APIError`, and the `process_audio` view propagates it as a
failure of the whole request (HTTP 500 error response), even though the
transcription stage succeeded. -/
theorem summarization_upstream_error_fails_request :
    generate_summary_and_actions "hello" "" (GeminiHttpOutcome.http 500 ⟨[]⟩) =
      Except.error ⟨"Gemini AI request failed: " ++ toString 500, 500, "gemini"⟩
    ∧ process_audio_view asr_ok_respond (GeminiHttpOutcome.http 500 ⟨[]⟩) "hi" "en" "" =
        ViewResponse.failure ("Gemini AI request failed: " ++ toString 500) "gemini" 500 :=
  ⟨rfl, rfl⟩

/-- Claim C1 as amended: `generate_summary_and_actions` returns a degraded
`AnalysisResult` (placeholder summary, empty lists) on blank input and on a
JSON parse failure of the generated text; but on an upstream HTTP error it
raises an `APIError` carrying the upstream status, which the endpoint
propagates as a failure of the whole request. -/
theorem summarization_degradation_amended (text notes raw : String)
    (status : Nat) (body : GeminiBody) :
    (pyStrip text = "" →
      generate_summary_and_actions text notes (GeminiHttpOutcome.http status body) =
        Except.ok ⟨"No content available for summary", [], []⟩)
    ∧ (status ≠ 200 → text ≠ "" → pyStrip text ≠ "" →
        generate_summary_and_actions text notes (GeminiHttpOutcome.http status body) =
          Except.error ⟨"Gemini AI request failed: " ++ toString status, status, "gemini"⟩)
    ∧ (text ≠ "" → pyStrip text ≠ "" → raw ≠ "" →
        generate_summary_and_actions text notes
            (GeminiHttpOutcome.http 200 ⟨[⟨some [GeminiGenerated.malformedJson raw]⟩]⟩) =
          Except.ok ⟨raw, [], []⟩) := by
  refine ⟨?_, ?_, ?_⟩
  · intro h
    simp [generate_summary_and_actions, h]
  · intro hs ht hp
    simp [generate_summary_and_actions, hs, ht, hp]
  · intro ht hp hr
    simp [generate_summary_and_actions, ht, hp, hr]

theorem summarization_degradation_amended_witness :
    (pyStrip "" = "" ∧
      generate_summary_and_actions "" "" (GeminiHttpOutcome.http 200 ⟨[]⟩) =
        Except.ok ⟨"No content available for summary", [], []⟩)
    ∧ ((404 ≠ 200 ∧ "x" ≠ "" ∧ pyStrip "x" ≠ "") ∧
      generate_summary_and_actions "x" "" (GeminiHttpOutcome.http 404 ⟨[]⟩) =
        Except.error ⟨"Gemini AI request failed: " ++ toString 404, 404, "gemini"⟩) :=
  ⟨⟨by decide, (summarization_degradation_amended "" "" "r" 200 ⟨[]⟩).1 (by decide)⟩,
   ⟨⟨by decide, by decide, by decide⟩,
    (summarization_degradation_amended "x" "" "r" 404 ⟨[]⟩).2.1
      (by decide) (by decide) (by decide)⟩⟩

/-- Claim C2: every constructed `BhashiniService` lacks the `max_retries`
attribute, so `speaker_diarization` raises an `APIError` (wrapping the
`AttributeError`) before any successful return, for every diarization
oracle; consequently every successful `process_audio_with_speakers` call
with diarization enabled has `diarization_status = "failed"`, empty
speakers and zero count — the `"completed"` branch is unreachable. -/
theorem missing_max_retries_diarization_always_fails (tok : String)
    (diarRespond : Nat → DiarAttemptOutcome) (asrRespond : Nat → AttemptOutcome)
    (src tgt : String) (c : CombinedResult)
    (hc : (BhashiniService.init tok).process_audio_with_speakers asrRespond diarRespond
        src tgt true = Except.ok c) :
    (BhashiniService.init tok).speaker_diarization diarRespond =
      Except.error ⟨"Speaker diarization processing error: AttributeError: BhashiniService object has no attribute max_retries", 500, "processing"⟩
    ∧ c.diarization_status = "failed" ∧ c.speakers = [] ∧ c.speaker_count = 0
    ∧ c.diarization_status ≠ "completed" := by
  refine ⟨rfl, ?_⟩
  unfold BhashiniService.process_audio_with_speakers at hc
  cases ho : (process_audio asrRespond src tgt 3).outcome with
  | error e => rw [ho] at hc; simp at hc
  | ok std =>
    rw [ho] at hc
    simp [BhashiniService.speaker_diarization, BhashiniService.init] at hc
    rw [← hc]
    exact ⟨rfl, rfl, rfl, show ("failed" : String) ≠ "completed" by decide⟩

theorem missing_max_retries_diarization_always_fails_witness :
    ((BhashiniService.init "tok").process_audio_with_speakers asr_ok_respond
        (fun _ => DiarAttemptOutcome.requestException "boom") "hi" "en" true =
      Except.ok ⟨"namaste", "hello", "hi", "success", [], 0, [], "failed"⟩)
    ∧ (⟨"namaste", "hello", "hi", "success", [], 0, [], "failed"⟩ :
        CombinedResult).diarization_status = "failed" :=
  ⟨rfl,
    (missing_max_retries_diarization_always_fails "tok"
      (fun _ => DiarAttemptOutcome.requestException "boom") asr_ok_respond "hi" "en"
      ⟨"namaste", "hello", "hi", "success", [], 0, [], "failed"⟩ rfl).2.1⟩

/-- Claim C6: for every service state and every oracle pair, if the
transcription stage succeeds and the diarization call raises any error,
`process_audio_with_speakers` still returns the transcription/translation
result successfully with `speakers = []`, `speaker_count = 0` and
`diarization_status = "failed"`, a value distinct from `"disabled"`. -/
theorem diarization_error_absorbed_with_failed_status (svc : BhashiniService)
    (asrRespond : Nat → AttemptOutcome) (diarRespond : Nat → DiarAttemptOutcome)
    (src tgt : String) (std : TranscriptionResult) (e : APIError)
    (ha : (process_audio asrRespond src tgt 3).outcome = Except.ok std)
    (hd : svc.speaker_diarization diarRespond = Except.error e) :
    svc.process_audio_with_speakers asrRespond diarRespond src tgt true =
      Except.ok ⟨std.transcription, std.translation, std.detected_language, std.status,
        [], 0, [], "failed"⟩
    ∧ ("failed" : String) ≠ "disabled" := by
  refine ⟨?_, by decide⟩
  unfold BhashiniService.process_audio_with_speakers
  rw [ha, hd]
  rfl

theorem diarization_error_absorbed_with_failed_status_witness :
    ((process_audio asr_ok_respond "hi" "en" 3).outcome =
        Except.ok ⟨"namaste", "hello", "hi", "success"⟩
      ∧ (BhashiniService.init "tok").speaker_diarization
          (fun _ => DiarAttemptOutcome.requestException "boom") =
        Except.error ⟨"Speaker diarization processing error: AttributeError: BhashiniService object has no attribute max_retries", 500, "processing"⟩)
    ∧ (BhashiniService.init "tok").process_audio_with_speakers asr_ok_respond
        (fun _ => DiarAttemptOutcome.requestException "boom") "hi" "en" true =
      Except.ok ⟨"namaste", "hello", "hi", "success", [], 0, [], "failed"⟩ :=
  ⟨⟨rfl, rfl⟩,
    (diarization_error_absorbed_with_failed_status (BhashiniService.init "tok")
      asr_ok_respond (fun _ => DiarAttemptOutcome.requestException "boom") "hi" "en"
      ⟨"namaste", "hello", "hi", "success"⟩ _ rfl rfl).1⟩

/-- A response body whose stage 1 output carries no `target` field, so the
extracted translation is empty while the transcript is `"hello"`. -/
def c5_asr_body : BhashiniBody := ⟨[⟨some [⟨some "hello", none⟩]⟩, ⟨some [⟨none, none⟩]⟩]⟩

/-- An upstream that answers every ASR+translation attempt with HTTP 200
and `c5_asr_body`. -/
def c5_asr_respond : Nat → AttemptOutcome := fun _ => AttemptOutcome.http 200 "" c5_asr_body

/-- A Gemini endpoint that answers HTTP 200 with a well-formed JSON body. -/
def gemini_ok_respond : GeminiHttpOutcome :=
  GeminiHttpOutcome.http 200 ⟨[⟨some [GeminiGenerated.parsed ⟨some "sum", some [], some []⟩]⟩]⟩

/-- Claim C5 counterexample: on the `process_audio_with_speakers` endpoint
with source language = target language = `"en"` and a non-empty extracted
transcript `"hello"`, the returned translation is the empty string, not the
transcript — the empty-translation backfill does not exist on this
endpoint. -/
theorem speakers_endpoint_no_backfill_counterexample :
    process_audio_with_speakers_view (BhashiniService.init "tok") c5_asr_respond
        (fun _ => DiarAttemptOutcome.requestException "down") gemini_ok_respond
        "en" "en" "" false =
      ViewResponse.success ⟨"hello", "", "sum", [], [], [], 0, [], "disabled"⟩
    ∧ ("" : String) ≠ "hello" :=
  ⟨rfl, by decide⟩

/-- Claim C5 as amended: on the `process_audio` endpoint an empty extracted
translation is backfilled from a non-empty transcript unconditionally (with
no source = target check); the `process_audio_with_speakers` endpoint
performs no backfill and returns the transcript and translation of the
combined service result unchanged. -/
theorem translation_backfill_only_basic_endpoint (r : TranscriptionResult)
    (svc : BhashiniService) (asrRespond : Nat → AttemptOutcome)
    (diarRespond : Nat → DiarAttemptOutcome) (geminiRespond : GeminiHttpOutcome)
    (src tgt notes : String) (incl : Bool) (c : CombinedResult) (d : SpeakersViewData)
    (h1 : r.translation = "") (h2 : r.transcription ≠ "")
    (hc : svc.process_audio_with_speakers asrRespond diarRespond (view_normalize_lang src)
        (view_normalize_lang tgt) incl = Except.ok c)
    (hv : process_audio_with_speakers_view svc asrRespond diarRespond geminiRespond
        src tgt notes incl = ViewResponse.success d) :
    view_extract r = (r.transcription, r.transcription)
    ∧ d.transcript = c.transcription ∧ d.translation = c.translation := by
  constructor
  · simp [view_extract, h1, h2]
  · simp only [process_audio_with_speakers_view, hc] at hv
    split at hv
    · exact absurd hv (by simp)
    · rename_i ai heq
      simp only [ViewResponse.success.injEq] at hv
      rw [← hv]
      exact ⟨rfl, rfl⟩

theorem translation_backfill_only_basic_endpoint_witness :
    ((⟨"hello", "", "en", "success"⟩ : TranscriptionResult).translation = ""
      ∧ (⟨"hello", "", "en", "success"⟩ : TranscriptionResult).transcription ≠ ""
      ∧ (BhashiniService.init "tok").process_audio_with_speakers c5_asr_respond
          (fun _ => DiarAttemptOutcome.requestException "down") (view_normalize_lang "en")
          (view_normalize_lang "en") false =
        Except.ok ⟨"hello", "", "en", "success", [], 0, [], "disabled"⟩
      ∧ process_audio_with_speakers_view (BhashiniService.init "tok") c5_asr_respond
          (fun _ => DiarAttemptOutcome.requestException "down") gemini_ok_respond
          "en" "en" "" false =
        ViewResponse.success ⟨"hello", "", "sum", [], [], [], 0, [], "disabled"⟩)
    ∧ view_extract ⟨"hello", "", "en", "success"⟩ = ("hello", "hello") :=
  ⟨⟨rfl, by decide, rfl, rfl⟩,
    (translation_backfill_only_basic_endpoint ⟨"hello", "", "en", "success"⟩
      (BhashiniService.init "tok") c5_asr_respond
      (fun _ => DiarAttemptOutcome.requestException "down") gemini_ok_respond
      "en" "en" "" false ⟨"hello", "", "en", "success", [], 0, [], "disabled"⟩
      ⟨"hello", "", "sum", [], [], [], 0, [], "disabled"⟩
      rfl (by decide) rfl rfl).1⟩

/-- Claim C9: in the `process_audio` view, when both extracted fields are
empty strings but the transcription record is present, the fallback scan
copies the first field value with non-blank content into both transcript
and translation — for the processed record this is the detected-language
code (or, with a blank detected language, the status string
`"success"`). -/
theorem empty_transcript_copies_unrelated_field (r : TranscriptionResult)
    (h1 : r.transcription = "") (h2 : r.translation = "")
    (h3 : pyStrip r.detected_language ≠ "") :
    view_extract r = (r.detected_language, r.detected_language)
    ∧ view_extract ⟨"", "", "", "success"⟩ = ("success", "success") := by
  have hd : r.detected_language ≠ "" := by
    intro h; rw [h] at h3; exact h3 rfl
  constructor
  · simp [view_extract, result_fields, scan_result_fields, h1, h2, h3, hd]
  · rfl

theorem empty_transcript_copies_unrelated_field_witness :
    (pyStrip "hi" ≠ "") ∧ view_extract ⟨"", "", "hi", "success"⟩ = ("hi", "hi") :=
  ⟨by decide,
    (empty_transcript_copies_unrelated_field ⟨"", "", "hi", "success"⟩ rfl rfl (by decide)).1⟩

theorem handle_bhashini_200_detected (body : BhashiniBody) (s : String)
    (r : TranscriptionResult) (h : handle_bhashini_200 body s = Except.ok r) :
    r.detected_language = s := by
  unfold handle_bhashini_200 at h
  repeat' split at h
  all_goals first
    | exact Except.noConfusion h
    | (simp only [Except.ok.injEq] at h; exact h ▸ rfl)

theorem process_audio_loop_ok_detected (respond : Nat → AttemptOutcome) (s : String)
    (m : Nat) :
    ∀ fuel attempt r,
      (process_audio_loop respond s m attempt fuel).outcome = Except.ok r →
      r.detected_language = s := by
  intro fuel
  induction fuel with
  | zero => intro attempt r h; simp [process_audio_loop] at h
  | succ n ih =>
    intro attempt r h
    simp only [process_audio_loop] at h
    split at h <;> simp only [apply_ite RetryTrace.outcome] at h <;> repeat' split at h
    all_goals first
      | exact handle_bhashini_200_detected _ _ _ h
      | exact ih _ _ h
      | exact Except.noConfusion h

/-- Claim C10: for every oracle, language pair and retry bound, a
successful `process_audio` result always reports the normalized, coerced
caller-supplied source language as `detected_language` (hence always
`"hi"` or `"en"`): language detection is never part of the transcription
path, whatever the audio content or the remote responses. -/
theorem detected_language_always_normalized_source (respond : Nat → AttemptOutcome)
    (src tgt : String) (max_retries : Nat) (r : TranscriptionResult)
    (h : (process_audio respond src tgt max_retries).outcome = Except.ok r) :
    r.detected_language = normalize_source_lang src
    ∧ (r.detected_language = "hi" ∨ r.detected_language = "en") := by
  have h1 := process_audio_loop_ok_detected respond (normalize_source_lang src)
    max_retries max_retries 0 r h
  exact ⟨h1, h1 ▸ normalize_source_lang_mem src⟩

theorem detected_language_always_normalized_source_witness :
    ((process_audio asr_ok_respond "EN-us" "hi" 3).outcome =
        Except.ok ⟨"namaste", "hello", "en", "success"⟩)
    ∧ (⟨"namaste", "hello", "en", "success"⟩ : TranscriptionResult).detected_language =
        normalize_source_lang "EN-us" :=
  ⟨rfl,
    (detected_language_always_normalized_source asr_ok_respond "EN-us" "hi" 3
      ⟨"namaste", "hello", "en", "success"⟩ rfl).1⟩

/-- The failing diarization output for claim C4: one speaker whose only
segment has duration 0, so the sum of all `total_duration` values is 0. -/
def c4_speaker_output : List SpeakerData :=
  [⟨some [[("spk0", [⟨0, 0⟩])]]⟩]

/-- Claim C4 evaluation at the failing input: with a non-empty profile list
whose total duration sums to 0, the `if speakers else 0` guard does not
prevent the division, the resulting `ZeroDivisionError` is swallowed, and
the returned profile carries label `"Speaker 1"` but no `percentage` key at
all — in particular its percentage is not 0. -/
theorem zero_total_duration_yields_no_percentage :
    (format_bhashini_speaker_data c4_speaker_output).map
        (fun p => (p.speaker_id, p.label, p.percentage)) =
      [("spk0", some "Speaker 1", (none : Option Rat))]
    ∧ (format_bhashini_speaker_data c4_speaker_output).map (fun p => p.percentage) ≠
        [some (0 : Rat)] := by
  have hf : format_bhashini_speaker_data c4_speaker_output =
      [⟨"spk0", [⟨0, 0 + 0, 0⟩], 0 + 0, some "Speaker 1", none⟩] := by
    simp [format_bhashini_speaker_data, c4_speaker_output, aggregate_speaker_times,
      add_speaker_entry, ensure_speaker, push_segment, sort_by_total_desc, insert_desc,
      label_speakers_loop]
    decide
  rw [hf]
  constructor
  · simp
  · simp
